import Mathlib

/-!
Shallow embedding of `src/cs_media_contracts.py`, a module that queries the
clearspending.ru procurement API by supplier tax identifier (INN), paginates
through the supplier's contracts, and filters out the contracts containing a
product whose OKPD or OKPD2 classification code belongs to one of two
reference code sets loaded from JSON files.

Network responses and JSON file contents are inputs of the embedding:
* a `LookupResp` describes what the supplier-by-INN endpoint did
  (404 / parsed payload / any raised exception);
* a `World` additionally carries the contracts endpoint's responses, where
  `none` stands for a raised exception (network error or unparseable body);
* the two reference code sets are passed as `List (Option String)` — the
  JSON lists may contain `null`, which Python loads as `None`.

Python exceptions that the code does NOT catch are modelled by
`Except.error ()`; values the functions return normally are `Except.ok`.
`get_supplier_name` catches every exception itself and returns `None`
(embedded as `Option.none`).
-/

namespace CsMedia

/-- A product record inside a contract, as `filter_media_contracts` reads it:
`product.get('OKPD', {}).get('code')` and `product.get('OKPD2', {}).get('code')`
collapse a missing field (or missing inner `code`) to `none`;
`sum` and `name` are read with `.get`, so they are optional. -/
structure Product where
  okpd : Option String
  okpd2 : Option String
  sum : Option String
  name : Option String
deriving DecidableEq

/-- A contract record. `products` and `regNum` are read with direct indexing
(`contract['products']`, `contract['regNum']`), so a missing field raises
`KeyError`; they are `Option` here so the embedding can express that case.
`price` is read with `.get('price', '-')`. -/
structure Contract where
  products : Option (List Product)
  price : Option String
  regNum : Option String
deriving DecidableEq

/-- The dictionary appended per matching contract by `filter_media_contracts`. -/
structure MediaSummary where
  contract_url : String
  contract_price : String
  product_description : String
  product_price : String
  num_products : Nat
deriving DecidableEq

/-- One element of `data['suppliers']['data']`: the `allNames` field may be
absent (then `.get('allNames', [u'Имярек'])` supplies the default). -/
structure SupplierEntry where
  allNames : Option (List String)
deriving DecidableEq

/-- The parsed body of a successful supplier lookup:
`data['suppliers']['data']`. -/
structure SupplierPayload where
  suppliersData : List SupplierEntry
deriving DecidableEq

/-- What the supplier-by-INN request did: HTTP 404, a successfully parsed
payload, or any exception (network failure, JSON parse error, missing
`suppliers` / `data` keys). -/
inductive LookupResp where
  | notFound
  | ok (payload : SupplierPayload)
  | fail
deriving DecidableEq

/-- Metadata of the first contracts request:
`data['total']` and `data['perpage']`. -/
structure ContractsMeta where
  total : Nat
  perpage : Nat
deriving DecidableEq

/-- The remote system as `get_contracts_by_inn` observes it: the lookup
response, the first contracts request (`none` = exception while fetching or
parsing it or reading its fields), and each numbered page request
(`none` = exception). -/
structure World where
  lookup : LookupResp
  firstPage : Option ContractsMeta
  pages : Nat → Option (List Contract)

/-- The phrase tested by `get_contracts_by_inn` with
`u'Не могу найти поставщика с ИНН' in supplier_name`. -/
def notFoundPhrase : String := "Не могу найти поставщика с ИНН"

/-- The placeholder name `u'Имярек'` used when `allNames` is absent. -/
def placeholderName : String := "Имярек"

/-- The generic failure string `u'Что-то пошло не так'`. -/
def genericFailureMsg : String := "Что-то пошло не так"

/-- The message returned on HTTP 404:
`u'Не могу найти поставщика с ИНН {}'.format(inn)`. -/
def notFoundMsg (inn : String) : String := notFoundPhrase ++ " " ++ inn

/-- Python's `needle in haystack` prefix step: does `needle` start `haystack`. -/
def startsWith : List Char → List Char → Bool
  | [], _ => true
  | _ :: _, [] => false
  | a :: as, b :: bs => a == b && startsWith as bs

/-- Python's substring scan: `needle` occurs contiguously in `haystack`. -/
def hasSub (needle : List Char) : List Char → Bool
  | [] => startsWith needle []
  | c :: cs => startsWith needle (c :: cs) || hasSub needle cs

/-- Python's `needle in haystack` on strings (substring containment). -/
def strContains (needle haystack : String) : Bool :=
  hasSub needle.toList haystack.toList

/-- `get_supplier_name(inn)`: on 404 return the not-found message; otherwise
read `data['suppliers']['data'][0].get('allNames', [u'Имярек'])[0]`.
Indexing `[0]` into an empty `data` list or an empty `allNames` list raises
`IndexError`, which the surrounding `try`/`except` catches, so the function
returns `None`; likewise any earlier exception (`.fail`). -/
def get_supplier_name (inn : String) (resp : LookupResp) : Option String :=
  match resp with
  | .notFound => some (notFoundMsg inn)
  | .fail => none
  | .ok payload =>
    match payload.suppliersData with
    | [] => none
    | entry :: _ =>
      match entry.allNames with
      | none => some placeholderName
      | some [] => none
      | some (n :: _) => some n

/-- `math.ceil(total / per_page)` for natural inputs with `per_page > 0`
(the `per_page = 0` case raises `ZeroDivisionError` and is handled at the
call site). -/
def numPages (total perpage : Nat) : Nat := (total + perpage - 1) / perpage

/-- `'https://clearspending.ru/contract/'`. -/
def clearspendingBase : String := "https://clearspending.ru/contract/"

/-- The match test `okpd in okpd_ref or okpd2 in okpd2_ref`: membership of the
(possibly `None`) extracted codes in the (possibly `null`-containing)
reference lists. -/
def productMatches (okpdRef okpd2Ref : List (Option String)) (p : Product) : Bool :=
  okpdRef.contains p.okpd || okpd2Ref.contains p.okpd2

/-- The inner `for product in products` loop up to its `break`: the first
product whose code matches, if any. -/
def firstMatch (okpdRef okpd2Ref : List (Option String)) : List Product → Option Product
  | [] => none
  | p :: ps =>
    if productMatches okpdRef okpd2Ref p then some p
    else firstMatch okpdRef okpd2Ref ps

/-- The dictionary built for a matching product `p` of contract `c` with
registry number `rn`: missing `price`, `sum`, `name` fall back to `'-'`. -/
def mkSummary (c : Contract) (ps : List Product) (p : Product) (rn : String) : MediaSummary :=
  { contract_url := clearspendingBase ++ rn
    contract_price := c.price.getD "-"
    product_description := p.name.getD "-"
    product_price := p.sum.getD "-"
    num_products := ps.length }

/-- One iteration of the outer `for contract in contracts` loop:
`contract['products']` raises if absent; if some product matches,
`contract['regNum']` raises if absent, else the summary is built. -/
def processContract (okpdRef okpd2Ref : List (Option String)) (c : Contract) :
    Except Unit (Option MediaSummary) :=
  match c.products with
  | none => .error ()
  | some ps =>
    match firstMatch okpdRef okpd2Ref ps with
    | none => .ok none
    | some p =>
      match c.regNum with
      | none => .error ()
      | some rn => .ok (some (mkSummary c ps p rn))

/-- `filter_media_contracts(contracts)` with the two reference code files'
contents as parameters: collect one summary per contract having a matching
product, in contract order; an uncaught `KeyError` aborts the whole call. -/
def filter_media_contracts (okpdRef okpd2Ref : List (Option String)) :
    List Contract → Except Unit (List MediaSummary)
  | [] => .ok []
  | c :: cs =>
    match processContract okpdRef okpd2Ref c with
    | .error e => .error e
    | .ok s? =>
      match filter_media_contracts okpdRef okpd2Ref cs with
      | .error e => .error e
      | .ok rest => .ok (match s? with | none => rest | some s => s :: rest)

/-- The `for page in range(1, int(num_pages) + 1)` loop: fetch each page
(`none` = exception, uncaught), filter it, and extend the accumulator. -/
def fetchPages (w : World) (okpdRef okpd2Ref : List (Option String)) :
    List Nat → Except Unit (List MediaSummary)
  | [] => .ok []
  | p :: ps =>
    match w.pages p with
    | none => .error ()
    | some contracts =>
      match filter_media_contracts okpdRef okpd2Ref contracts with
      | .error e => .error e
      | .ok ms =>
        match fetchPages w okpdRef okpd2Ref ps with
        | .error e => .error e
        | .ok rest => .ok (ms ++ rest)

/-- The pages visited by the loop header `range(1, int(num_pages) + 1)`. -/
def pagesVisited (total perpage : Nat) : List Nat :=
  List.range' 1 (numPages total perpage)

/-- What `get_contracts_by_inn` returns normally: either one of the two
descriptive strings or the success triple
`(supplier_name, total, all_media_contracts)`. -/
inductive FetchOutcome where
  | err (msg : String)
  | ok (supplierName : String) (total : Nat) (contracts : List MediaSummary)
deriving DecidableEq

/-- `get_contracts_by_inn(inn)`: look up the supplier; `None` means the
lookup raised, so return the generic failure string; a name containing the
not-found phrase is returned as is; otherwise fetch the first contracts page
(uncaught exception if it fails), compute the page count, and accumulate the
filtered pages (`perpage = 0` would raise `ZeroDivisionError`). -/
def get_contracts_by_inn (inn : String) (okpdRef okpd2Ref : List (Option String))
    (w : World) : Except Unit FetchOutcome :=
  match get_supplier_name inn w.lookup with
  | none => .ok (.err genericFailureMsg)
  | some supplierName =>
    if strContains notFoundPhrase supplierName then .ok (.err supplierName)
    else
      match w.firstPage with
      | none => .error ()
      | some meta =>
        if meta.perpage = 0 then .error ()
        else
          match fetchPages w okpdRef okpd2Ref (pagesVisited meta.total meta.perpage) with
          | .error e => .error e
          | .ok ms => .ok (.ok supplierName meta.total ms)

/-- The summary a single contract contributes when nothing raises: derived
observer used to characterise `filter_media_contracts` output. -/
def contractSummary? (okpdRef okpd2Ref : List (Option String)) (c : Contract) :
    Option MediaSummary :=
  match c.products with
  | none => none
  | some ps =>
    match firstMatch okpdRef okpd2Ref ps with
    | none => none
    | some p => (c.regNum).map (mkSummary c ps p)

/-- The filtered result of one page when nothing raises: derived observer
used to characterise `get_contracts_by_inn` accumulation. -/
def pageOk? (w : World) (okpdRef okpd2Ref : List (Option String)) (p : Nat) :
    Option (List MediaSummary) :=
  match w.pages p with
  | none => none
  | some contracts =>
    match filter_media_contracts okpdRef okpd2Ref contracts with
    | .error _ => none
    | .ok ms => some ms

/-! ## Helper lemmas -/

/-- A list starts with itself followed by anything. -/
theorem startsWith_append (l t : List Char) : startsWith l (l ++ t) = true := by
  induction l with
  | nil => rfl
  | cons a as ih => simp [startsWith, ih]

/-- A list has itself as a substring of itself followed by anything. -/
theorem hasSub_append (l t : List Char) : hasSub l (l ++ t) = true := by
  cases l with
  | nil =>
    cases t with
    | nil => rfl
    | cons c cs => rfl
  | cons a as =>
    show (startsWith (a :: as) (a :: (as ++ t)) || hasSub (a :: as) (as ++ t)) = true
    have h1 : startsWith (a :: as) ((a :: as) ++ t) = true := startsWith_append _ _
    rw [List.cons_append] at h1
    rw [h1, Bool.true_or]

/-- The not-found message built for `inn` always contains the tested phrase. -/
theorem strContains_notFoundMsg (inn : String) :
    strContains notFoundPhrase (notFoundMsg inn) = true := by
  have h : (notFoundMsg inn).toList
      = notFoundPhrase.toList ++ (" " ++ inn).toList := by
    simp [notFoundMsg, String.toList, String.data_append, List.append_assoc]
  rw [strContains, h]
  exact hasSub_append _ _

/-- `firstMatch` returning a product decomposes the list: everything before it
fails the match and it itself matches. -/
theorem firstMatch_eq_some {rA rB : List (Option String)} :
    ∀ {ps : List Product} {p : Product}, firstMatch rA rB ps = some p →
      ∃ pre post, ps = pre ++ p :: post
        ∧ (∀ q ∈ pre, productMatches rA rB q = false)
        ∧ productMatches rA rB p = true := by
  intro ps
  induction ps with
  | nil => intro p h; cases h
  | cons q qs ih =>
    intro p h
    unfold firstMatch at h
    split at h
    case isTrue hm =>
      injection h with h
      subst h
      exact ⟨[], qs, rfl, by simp, hm⟩
    case isFalse hm =>
      obtain ⟨pre, post, hdec, hpre, hp⟩ := ih h
      refine ⟨q :: pre, post, by rw [hdec, List.cons_append], ?_, hp⟩
      intro r hr
      rcases List.mem_cons.mp hr with hq | hq
      · subst hq
        exact Bool.eq_false_iff.mpr hm
      · exact hpre r hq

/-- If no product of the list matches, `firstMatch` finds nothing. -/
theorem firstMatch_eq_none {rA rB : List (Option String)} :
    ∀ {ps : List Product}, (∀ p ∈ ps, productMatches rA rB p = false) →
      firstMatch rA rB ps = none := by
  intro ps
  induction ps with
  | nil => intro _; rfl
  | cons q qs ih =>
    intro h
    have hq := h q (List.mem_cons_self q qs)
    simp [firstMatch, hq]
    exact ih fun p hp => h p (List.mem_cons_of_mem _ hp)

/-- When one contract is processed without raising, the result is exactly the
derived observer `contractSummary?`. -/
theorem processContract_ok {rA rB : List (Option String)} {c : Contract}
    {s? : Option MediaSummary} (h : processContract rA rB c = .ok s?) :
    contractSummary? rA rB c = s? := by
  cases hp : c.products with
  | none => simp [processContract, hp] at h
  | some ps =>
    cases hf : firstMatch rA rB ps with
    | none =>
      simp [processContract, hp, hf] at h
      simp [contractSummary?, hp, hf, h]
    | some p =>
      cases hr : c.regNum with
      | none => simp [processContract, hp, hf, hr] at h
      | some rn =>
        simp [processContract, hp, hf, hr] at h
        simp [contractSummary?, hp, hf, hr, h]

/-- When a whole page is filtered without raising, the output is the
`filterMap` of the per-contract observer, in contract order. -/
theorem filter_ok_filterMap {rA rB : List (Option String)} :
    ∀ {cs : List Contract} {out : List MediaSummary},
      filter_media_contracts rA rB cs = .ok out →
      out = cs.filterMap (contractSummary? rA rB) := by
  intro cs
  induction cs with
  | nil => intro out h; simp [filter_media_contracts] at h; simp [← h]
  | cons c cs ih =>
    intro out h
    cases hpc : processContract rA rB c with
    | error e => simp [filter_media_contracts, hpc] at h
    | ok s? =>
      cases hrec : filter_media_contracts rA rB cs with
      | error e => simp [filter_media_contracts, hpc, hrec] at h
      | ok rest =>
        have hstep := processContract_ok hpc
        have hihr := ih hrec
        simp [filter_media_contracts, hpc, hrec] at h
        cases s? with
        | none => simp [List.filterMap_cons, hstep, hihr, ← h]
        | some s => simp [List.filterMap_cons, hstep, hihr, ← h]

/-- When every page request and filtering succeeds, the accumulator is the
concatenation of the per-page results, in page order. -/
theorem fetchPages_ok_flatten {w : World} {rA rB : List (Option String)} :
    ∀ {pages : List Nat} {out : List MediaSummary},
      fetchPages w rA rB pages = .ok out →
      out = (pages.filterMap (pageOk? w rA rB)).flatten := by
  intro pages
  induction pages with
  | nil => intro out h; simp [fetchPages] at h; simp [← h]
  | cons p ps ih =>
    intro out h
    cases hp : w.pages p with
    | none => simp [fetchPages, hp] at h
    | some contracts =>
      cases hf : filter_media_contracts rA rB contracts with
      | error e => simp [fetchPages, hp, hf] at h
      | ok ms =>
        cases hr : fetchPages w rA rB ps with
        | error e => simp [fetchPages, hp, hf, hr] at h
        | ok rest =>
          simp [fetchPages, hp, hf, hr] at h
          have hpg : pageOk? w rA rB p = some ms := by
            simp [pageOk?, hp, hf]
          simp [List.filterMap_cons, hpg, List.flatten_cons, ih hr, ← h]

/-- `range' 1 n` is strictly sorted. -/
theorem sorted_range' (s n : Nat) : List.Sorted (· < ·) (List.range' s n) := by
  induction n generalizing s with
  | zero => exact List.sorted_nil
  | succ n ih =>
    rw [List.range'_succ]
    refine List.sorted_cons.mpr ⟨?_, ih (s + 1)⟩
    intro b hb
    have := (List.mem_range'_1.mp hb).1
    omega

/-- The integer `(total + perpage - 1) / perpage` is the ceiling of the
rational `total / perpage`: it is the least count of pages of size `perpage`
covering `total` items. -/
theorem numPages_ceil (total pp : Nat) (h : 0 < pp) :
    total ≤ numPages total pp * pp ∧ numPages total pp * pp < total + pp := by
  have hdm : numPages total pp * pp + (total + pp - 1) % pp = total + pp - 1 := by
    unfold numPages
    rw [Nat.mul_comm]
    exact Nat.div_add_mod (total + pp - 1) pp
  have hlt : (total + pp - 1) % pp < pp := Nat.mod_lt _ h
  generalize hA : numPages total pp * pp = A at hdm ⊢
  omega

/-! ## Claims -/

/-- Claim C1, counterexample: with a successful supplier lookup but a contract
fetch that raises (`firstPage = none`), `get_contracts_by_inn` ends in an
uncaught exception (`Except.error ()`), so an exception does propagate out. -/
theorem c1_counterexample :
    get_contracts_by_inn "1" [] []
      ⟨.ok ⟨[⟨some ["Acme"]⟩]⟩, none, fun _ => none⟩ = .error () := rfl

/-- Claim C1, amended: every failure during the supplier lookup is caught and
converted to the generic failure outcome, but a failure during the contract
fetch is not caught and propagates out of `get_contracts_by_inn`. -/
theorem c1_lookup_caught_fetch_uncaught (inn : String)
    (rA rB : List (Option String)) (w : World) :
    (w.lookup = .fail →
      get_contracts_by_inn inn rA rB w = .ok (.err genericFailureMsg))
    ∧ (∀ supplierName, get_supplier_name inn w.lookup = some supplierName →
        strContains notFoundPhrase supplierName = false →
        w.firstPage = none →
        get_contracts_by_inn inn rA rB w = .error ()) := by
  constructor
  · intro h
    simp [get_contracts_by_inn, h, get_supplier_name]
  · intro supplierName hn hc hfp
    simp [get_contracts_by_inn, hn, hc, hfp]

/-- Claim C1, witness for the amended theorem at concrete worlds. -/
theorem c1_witness :
    get_contracts_by_inn "1" [] [] ⟨.fail, none, fun _ => none⟩
      = .ok (.err genericFailureMsg)
    ∧ get_contracts_by_inn "2" [] [] ⟨.ok ⟨[⟨some ["Acme"]⟩]⟩, none, fun _ => none⟩
      = .error () :=
  ⟨(c1_lookup_caught_fetch_uncaught "1" [] [] _).1 rfl,
   (c1_lookup_caught_fetch_uncaught "2" [] [] _).2 "Acme" rfl (by decide) rfl⟩

/-- Claim C2, counterexample: a contract without the `products` field makes
`filter_media_contracts` raise (`KeyError`), failing the whole operation
instead of substituting a placeholder. -/
theorem c2_counterexample :
    filter_media_contracts [] [] [⟨none, none, none⟩] = .error () := rfl

/-- Claim C2, amended: a missing contract price, product price, or product
description is substituted with the placeholder `'-'`, and the summary is
still produced; but a contract whose product-list field is missing, or whose
registry-number field is missing while one of its products matches, raises and
fails the whole filtering operation. -/
theorem c2_placeholders_and_keyerrors (rA rB : List (Option String))
    (c : Contract) (ps : List Product) (p : Product) :
    (∀ rn cs rest, c.products = some ps → firstMatch rA rB ps = some p →
      c.regNum = some rn → filter_media_contracts rA rB cs = .ok rest →
      filter_media_contracts rA rB (c :: cs)
        = .ok ({ contract_url := clearspendingBase ++ rn
                 contract_price := c.price.getD "-"
                 product_description := p.name.getD "-"
                 product_price := p.sum.getD "-"
                 num_products := ps.length } :: rest))
    ∧ (∀ cs, c.products = none →
        filter_media_contracts rA rB (c :: cs) = .error ())
    ∧ (∀ cs, c.products = some ps → firstMatch rA rB ps = some p →
        c.regNum = none →
        filter_media_contracts rA rB (c :: cs) = .error ()) := by
  refine ⟨?_, ?_, ?_⟩
  · intro rn cs rest hps hfm hrn hrest
    simp [filter_media_contracts, processContract, hps, hfm, hrn, hrest, mkSummary]
  · intro cs hps
    simp [filter_media_contracts, processContract, hps]
  · intro cs hps hfm hrn
    simp [filter_media_contracts, processContract, hps, hfm, hrn]

/-- Claim C2, witness for the amended theorem at concrete inputs. -/
theorem c2_witness :
    filter_media_contracts [some "A"] []
        [⟨some [⟨some "A", none, none, none⟩], none, some "7"⟩]
      = .ok [⟨clearspendingBase ++ "7", "-", "-", "-", 1⟩]
    ∧ filter_media_contracts [] [] [⟨none, none, none⟩] = .error ()
    ∧ filter_media_contracts [some "A"] []
        [⟨some [⟨some "A", none, none, none⟩], none, none⟩] = .error () :=
  ⟨(c2_placeholders_and_keyerrors [some "A"] [] _ [⟨some "A", none, none, none⟩]
      ⟨some "A", none, none, none⟩).1 "7" [] [] rfl (by decide) rfl rfl,
   (c2_placeholders_and_keyerrors [] [] ⟨none, none, none⟩ [] ⟨none, none, none, none⟩).2.1
      [] rfl,
   (c2_placeholders_and_keyerrors [some "A"] [] _ [⟨some "A", none, none, none⟩]
      ⟨some "A", none, none, none⟩).2.2 [] rfl (by decide) rfl⟩

/-- Claim C3: when a page filters without raising, the output is one summary
per contract at most (a `filterMap` over the contracts, so at most one entry
per contract, in order, of length at most the page's); a contract contributes
a summary exactly when a product matches, and that summary's description and
price come from the first matching product in the contract's product order. -/
theorem c3_first_matching_product (rA rB : List (Option String))
    (cs : List Contract) (out : List MediaSummary)
    (hok : filter_media_contracts rA rB cs = .ok out) :
    out = cs.filterMap (contractSummary? rA rB)
    ∧ out.length ≤ cs.length
    ∧ (∀ c s, contractSummary? rA rB c = some s →
        ∃ ps pre p post, c.products = some ps ∧ ps = pre ++ p :: post
          ∧ (∀ q ∈ pre, productMatches rA rB q = false)
          ∧ productMatches rA rB p = true
          ∧ s.product_description = p.name.getD "-"
          ∧ s.product_price = p.sum.getD "-")
    ∧ (∀ c ps, c.products = some ps →
        (∀ p ∈ ps, productMatches rA rB p = false) →
        contractSummary? rA rB c = none) := by
  refine ⟨filter_ok_filterMap hok, ?_, ?_, ?_⟩
  · rw [filter_ok_filterMap hok]
    exact List.length_filterMap_le _ _
  · intro c s hs
    cases hp : c.products with
    | none => simp [contractSummary?, hp] at hs
    | some ps =>
      cases hf : firstMatch rA rB ps with
      | none => simp [contractSummary?, hp, hf] at hs
      | some p =>
        cases hr : c.regNum with
        | none => simp [contractSummary?, hp, hf, hr] at hs
        | some rn =>
          simp [contractSummary?, hp, hf, hr] at hs
          obtain ⟨pre, post, hdec, hpre, hmatch⟩ := firstMatch_eq_some hf
          exact ⟨ps, pre, p, post, rfl, hdec, hpre, hmatch,
            by rw [← hs, mkSummary], by rw [← hs, mkSummary]⟩
  · intro c ps hp hnone
    simp [contractSummary?, hp, firstMatch_eq_none hnone]

/-- Claim C3, witness at a two-contract page: first contract matches on its
second product being preceded by a non-matching one, second contract has no
match. -/
theorem c3_witness :
    filter_media_contracts [some "A"] []
        [⟨some [⟨some "B", none, none, none⟩, ⟨some "A", none, some "5", some "d"⟩],
          none, some "9"⟩,
         ⟨some [⟨some "B", none, none, none⟩], none, some "10"⟩]
      = .ok [⟨clearspendingBase ++ "9", "-", "d", "5", 2⟩]
    ∧ [⟨clearspendingBase ++ "9", "-", "d", "5", 2⟩]
      = List.filterMap (contractSummary? [some "A"] [])
          [⟨some [⟨some "B", none, none, none⟩, ⟨some "A", none, some "5", some "d"⟩],
            none, some "9"⟩,
           ⟨some [⟨some "B", none, none, none⟩], none, some "10"⟩] :=
  ⟨rfl,
   (c3_first_matching_product [some "A"] []
      [⟨some [⟨some "B", none, none, none⟩, ⟨some "A", none, some "5", some "d"⟩],
        none, some "9"⟩,
       ⟨some [⟨some "B", none, none, none⟩], none, some "10"⟩]
      [⟨clearspendingBase ++ "9", "-", "d", "5", 2⟩] rfl).1⟩

/-- Claim C4: with a successful lookup and a readable first contracts page
with positive page size, `get_contracts_by_inn` computes
`num_pages = ceil(total / per_page)` (the least number of pages of that size
covering the total) and walks exactly the pages `1..num_pages`, each once
(`pagesVisited` is duplicate-free and contains precisely those numbers), the
result being the accumulation over those pages; for `total = 250` and page
size `100` exactly 3 pages are requested. -/
theorem c4_pagination (inn : String) (rA rB : List (Option String)) (w : World)
    (supplierName : String) (meta : ContractsMeta)
    (hname : get_supplier_name inn w.lookup = some supplierName)
    (hph : strContains notFoundPhrase supplierName = false)
    (hfp : w.firstPage = some meta)
    (hpp : 0 < meta.perpage) :
    (∀ ms, fetchPages w rA rB (pagesVisited meta.total meta.perpage) = .ok ms →
      get_contracts_by_inn inn rA rB w = .ok (.ok supplierName meta.total ms))
    ∧ (∀ e, fetchPages w rA rB (pagesVisited meta.total meta.perpage) = .error e →
      get_contracts_by_inn inn rA rB w = .error e)
    ∧ (pagesVisited meta.total meta.perpage).Nodup
    ∧ (∀ p, p ∈ pagesVisited meta.total meta.perpage
        ↔ 1 ≤ p ∧ p ≤ numPages meta.total meta.perpage)
    ∧ meta.total ≤ numPages meta.total meta.perpage * meta.perpage
    ∧ numPages meta.total meta.perpage * meta.perpage < meta.total + meta.perpage
    ∧ numPages 250 100 = 3 := by
  have hnz : ¬ meta.perpage = 0 := Nat.pos_iff_ne_zero.mp hpp
  refine ⟨?_, ?_, List.nodup_range' _ _, ?_, (numPages_ceil _ _ hpp).1,
    (numPages_ceil _ _ hpp).2, by decide⟩
  · intro ms hms
    simp [get_contracts_by_inn, hname, hph, hfp, hnz, hms]
  · intro e he
    simp [get_contracts_by_inn, hname, hph, hfp, hnz, he]
  · intro p
    rw [pagesVisited, List.mem_range'_1]
    omega

/-- Claim C4, witness: a concrete world with `total = 250`, `perpage = 100`. -/
theorem c4_witness : numPages 250 100 = 3 ∧ pagesVisited 250 100 = [1, 2, 3] :=
  ⟨(c4_pagination "1" [] [] ⟨.ok ⟨[⟨some ["Acme"]⟩]⟩, some ⟨250, 100⟩, fun _ => some []⟩
      "Acme" ⟨250, 100⟩ rfl (by decide) rfl (by decide)).2.2.2.2.2.2,
   by decide⟩

/-- Claim C5, counterexample: a product carrying neither code field does match
when the OKPD reference set contains a `null` entry (Python's `None in list`),
and the contract is summarised. -/
theorem c5_counterexample :
    productMatches [none] [] ⟨none, none, none, none⟩ = true
    ∧ filter_media_contracts [none] []
        [⟨some [⟨none, none, none, none⟩], none, some "42"⟩]
      = .ok [⟨"https://clearspending.ru/contract/42", "-", "-", "-", 1⟩] :=
  ⟨rfl, rfl⟩

/-- Claim C5, amended: a product with neither code field never matches
provided neither reference set contains a `null` entry; if the OKPD reference
set does contain `null`, a codeless product matches. -/
theorem c5_no_code_no_match (rA rB : List (Option String))
    (hA : rA.contains none = false) (hB : rB.contains none = false) :
    (∀ p : Product, p.okpd = none → p.okpd2 = none →
      productMatches rA rB p = false)
    ∧ (∀ rA2 : List (Option String), rA2.contains none = true →
        ∀ p : Product, p.okpd = none → productMatches rA2 rB p = true) := by
  constructor
  · intro p h1 h2
    unfold productMatches
    rw [h1, h2, hA, hB]
    rfl
  · intro rA2 hA2 p h1
    unfold productMatches
    rw [h1, hA2]
    rfl

/-- Claim C5, witness for the amended theorem at concrete reference sets. -/
theorem c5_witness :
    productMatches [some "A"] [some "B"] ⟨none, none, none, none⟩ = false
    ∧ productMatches [none] [some "B"] ⟨none, none, none, none⟩ = true :=
  ⟨(c5_no_code_no_match [some "A"] [some "B"] (by decide) (by decide)).1
      ⟨none, none, none, none⟩ rfl rfl,
   (c5_no_code_no_match [some "A"] [some "B"] (by decide) (by decide)).2
      [none] (by decide) ⟨none, none, none, none⟩ rfl⟩

/-- Claim C6: on the registry's 404, `get_supplier_name` returns the
not-found message carrying the exact identifier, and `get_contracts_by_inn`
returns that message unchanged whatever the contracts endpoint would answer —
so no contracts request influences the outcome. -/
theorem c6_not_found_propagates (inn : String) (rA rB : List (Option String))
    (fp : Option ContractsMeta) (pg : Nat → Option (List Contract)) :
    get_supplier_name inn LookupResp.notFound = some (notFoundMsg inn)
    ∧ notFoundMsg inn = notFoundPhrase ++ " " ++ inn
    ∧ get_contracts_by_inn inn rA rB ⟨.notFound, fp, pg⟩
      = .ok (.err (notFoundMsg inn)) := by
  refine ⟨rfl, rfl, ?_⟩
  simp [get_contracts_by_inn, get_supplier_name, strContains_notFoundMsg]

/-- Claim C7, counterexample: a successful response whose first supplier entry
has an empty `allNames` list makes `get_supplier_name` raise on `[0]` and
return `None`, so the caller gets the generic failure, not the placeholder. -/
theorem c7_counterexample :
    get_supplier_name "123" (.ok ⟨[⟨some []⟩]⟩) = none
    ∧ get_contracts_by_inn "123" [] [] ⟨.ok ⟨[⟨some []⟩]⟩, none, fun _ => none⟩
      = .ok (.err genericFailureMsg) :=
  ⟨rfl, rfl⟩

/-- Claim C7, amended: on a successful response `get_supplier_name` returns
the first entry's first name when `allNames` is nonempty, and the placeholder
when the `allNames` field is absent; but when the supplier data list is empty
or `allNames` is present and empty, the index access raises and the caught
exception yields `None` (hence the generic failure downstream). -/
theorem c7_first_name_or_placeholder (inn : String) (rest : List SupplierEntry) :
    (∀ (n : String) (ns : List String),
      get_supplier_name inn (.ok ⟨⟨some (n :: ns)⟩ :: rest⟩) = some n)
    ∧ get_supplier_name inn (.ok ⟨⟨(none : Option (List String))⟩ :: rest⟩)
      = some placeholderName
    ∧ get_supplier_name inn (.ok ⟨⟨some ([] : List String)⟩ :: rest⟩) = none
    ∧ get_supplier_name inn (.ok ⟨[]⟩) = none :=
  ⟨fun _ _ => rfl, rfl, rfl, rfl⟩

/-- Claim C8: filtering is deterministic in the page and the reference sets —
two calls of `filter_media_contracts` on the same page with the same
reference sets give the same output. -/
theorem c8_idempotent (rA rB : List (Option String)) (page : List Contract)
    (out₁ out₂ : Except Unit (List MediaSummary))
    (h₁ : filter_media_contracts rA rB page = out₁)
    (h₂ : filter_media_contracts rA rB page = out₂) : out₁ = out₂ :=
  h₁ ▸ h₂ ▸ rfl

/-- Claim C8, witness at a concrete page. -/
theorem c8_witness :
    (Except.ok [] : Except Unit (List MediaSummary)) = Except.ok [] :=
  c8_idempotent [] [] [⟨some [], none, none⟩] _ _ rfl rfl

/-- Claim C9: success and not-found are separated only by a substring test —
a successful lookup whose resolved name contains the not-found phrase is
classified as not-found: the name is returned as the negative outcome, and
the contracts endpoint is never consulted (the result is the same for every
`firstPage` and `pages`). -/
theorem c9_substring_classification (inn : String) (rA rB : List (Option String))
    (payload : SupplierPayload) (fp : Option ContractsMeta)
    (pg : Nat → Option (List Contract)) (supplierName : String)
    (hname : get_supplier_name inn (.ok payload) = some supplierName)
    (hph : strContains notFoundPhrase supplierName = true) :
    get_contracts_by_inn inn rA rB ⟨.ok payload, fp, pg⟩
      = .ok (.err supplierName) := by
  simp [get_contracts_by_inn, hname, hph]

/-- Claim C9, witness: a supplier whose real name is the not-found phrase. -/
theorem c9_witness :
    get_contracts_by_inn "9" [] []
        ⟨.ok ⟨[⟨some [notFoundPhrase]⟩]⟩, none, fun _ => none⟩
      = .ok (.err notFoundPhrase) :=
  c9_substring_classification "9" [] [] ⟨[⟨some [notFoundPhrase]⟩]⟩ none _
    notFoundPhrase rfl (by decide)

/-- Claim C10: order preservation — a page filtered without raising lists the
summaries as a `filterMap` of the page's contracts, so in the contracts'
relative order; the page loop's accumulator, when it succeeds, is the
concatenation of the per-page results in the order of the visited pages; and
the visited pages are strictly ascending. -/
theorem c10_output_order (w : World) (rA rB : List (Option String)) :
    (∀ cs out, filter_media_contracts rA rB cs = .ok out →
      out = cs.filterMap (contractSummary? rA rB))
    ∧ (∀ pages out, fetchPages w rA rB pages = .ok out →
      out = (pages.filterMap (pageOk? w rA rB)).flatten)
    ∧ (∀ total perpage, List.Sorted (· < ·) (pagesVisited total perpage)) :=
  ⟨fun _ _ h => filter_ok_filterMap h,
   fun _ _ h => fetchPages_ok_flatten h,
   fun _ _ => sorted_range' _ _⟩

/-- Claim C10, witness: the flatten characterisation at a concrete two-page
world. -/
theorem c10_witness :
    ([] : List MediaSummary)
      = (List.filterMap
          (pageOk? ⟨.notFound, none, fun _ => some []⟩ [] []) [1, 2]).flatten :=
  (c10_output_order ⟨.notFound, none, fun _ => some []⟩ [] []).2.1 [1, 2] [] rfl

end CsMedia
